import Mathlib

/-!
Shallow embedding of `renderer.h` (a single-header glue layer between the
Clay layout engine and the Raylib drawing backend).

Conventions of the embedding:
* C `float`/`double` values are modelled as `ℚ` (the operations exercised by
  the verified claims — additions, subtractions, multiplications, divisions,
  `fminf`/`fmaxf`, comparisons, `roundf` — are exact on the rationals involved).
* Machine integers (`uint16_t`, `size_t`, `int`) are modelled as `Nat`/`Int`;
  the verified claims never reach wrap-around, which is noted where relevant.
* Fallible code paths (C `assert`/`exit`) are modelled by `Option`: `none`
  means the assertion/abort branch was taken.
* C strings (`char[]`, `char *`) are modelled as `List Char`; a null pointer
  is `Option.none`.
* Raylib's drawing primitives are external to the repository; each call the
  interpreter makes is recorded as a `RaylibOp` carrying exactly the
  arguments appearing at the call site (with the explicit `(int)roundf(...)`
  casts that the source writes).
-/

/-! ### String and numeric helpers mirroring the C library calls used -/

/-- Index of the last occurrence of `c` in `s` (mirrors C `strrchr`,
returned as an index instead of a pointer; `none` models a NULL result). -/
def lastIndexOf : List Char → Char → Option Nat
  | [], _ => none
  | x :: xs, c =>
    match lastIndexOf xs c with
    | some i => some (i + 1)
    | none => if x = c then some 0 else none

/-- Value of a digit string read most-significant first. -/
def natOfDigits (s : List Char) : Nat :=
  List.foldl (fun acc c => acc * 10 + (c.toNat - 48)) 0 s

/-- Value of the digits after a decimal point. -/
def fracOfDigits : List Char → ℚ
  | [] => 0
  | c :: cs => (((c.toNat - 48 : Nat) : ℚ) + fracOfDigits cs) / 10

/-- Magnitude part of C `atof`: leading digits, then an optional fractional
part.  (The exponent syntax of `atof` is never used by the token grammar.) -/
def atofMag (s : List Char) : ℚ :=
  let ds := s.takeWhile Char.isDigit
  let rest := s.dropWhile Char.isDigit
  let ip : ℚ := (natOfDigits ds : Nat)
  match rest with
  | '.' :: r2 => ip + fracOfDigits (r2.takeWhile Char.isDigit)
  | _ => ip

/-- C `atof` on the token substrings fed to it by the parser: optional
spaces, optional sign, digits, optional fraction. -/
def atofQ (s : List Char) : ℚ :=
  let s := s.dropWhile (fun c => c = ' ')
  match s with
  | '-' :: rest => -(atofMag rest)
  | '+' :: rest => atofMag rest
  | _ => atofMag s

/-- Conversion of a C `double` to `uint16_t` for the in-range non-negative
values produced by the width tokens: truncation toward zero. -/
def toU16 (q : ℚ) : Nat := (Rat.floor q).toNat

/-- C `roundf`: round to nearest, halves away from zero. -/
def roundQ (q : ℚ) : ℤ :=
  if q < 0 then -(Rat.floor (-q + 1/2)) else Rat.floor (q + 1/2)

/-! ### Colors and geometry -/

/-- `Clay_Color`: four float channels on the 0–255 scale. -/
structure Clay_Color where
  r : ℚ
  g : ℚ
  b : ℚ
  a : ℚ
deriving DecidableEq

/-- Raylib `Color` as produced by the `CLAY_COLOR_TO_RAYLIB_COLOR` macro:
each channel passed through `roundf` (the `uint8_t` cast is the identity on
the in-range values the repository produces). -/
structure RaylibColor where
  r : ℤ
  g : ℤ
  b : ℤ
  a : ℤ
deriving DecidableEq

/-- The `CLAY_COLOR_TO_RAYLIB_COLOR` macro. -/
def CLAY_COLOR_TO_RAYLIB_COLOR (c : Clay_Color) : RaylibColor :=
  ⟨roundQ c.r, roundQ c.g, roundQ c.b, roundQ c.a⟩

/-- `Clay_BoundingBox`: x, y, width, height in drawing coordinates. -/
structure Clay_BoundingBox where
  x : ℚ
  y : ℚ
  width : ℚ
  height : ℚ
deriving DecidableEq

/-! ### Structured style configuration (the relevant part of
`Clay_ElementDeclaration`, which lives in the external `clay.h`; only the
fields that `ParseComponentOptions` reads or writes are modelled) -/

inductive Clay_LayoutAlignmentX where
  | left
  | right
  | center
deriving DecidableEq

inductive Clay_LayoutAlignmentY where
  | top
  | bottom
  | center
deriving DecidableEq

structure Clay_ChildAlignment where
  x : Clay_LayoutAlignmentX
  y : Clay_LayoutAlignmentY
deriving DecidableEq

inductive Clay_LayoutDirection where
  | leftToRight
  | topToBottom
deriving DecidableEq

/-- `Clay_Padding`: per-edge padding, `uint16_t` each. -/
structure Clay_Padding where
  left : Nat
  right : Nat
  top : Nat
  bottom : Nat
deriving DecidableEq

/-- One sizing axis: mode plus numeric parameter, as produced by the
`CLAY_SIZING_FIT/GROW/FIXED/PERCENT` constructors. -/
inductive Clay_SizingAxis where
  | fit (v : ℚ)
  | grow (v : ℚ)
  | fixed (v : ℚ)
  | percent (v : ℚ)
deriving DecidableEq

structure Clay_Sizing where
  width : Clay_SizingAxis
  height : Clay_SizingAxis
deriving DecidableEq

structure Clay_LayoutConfig where
  sizing : Clay_Sizing
  padding : Clay_Padding
  childGap : Nat
  childAlignment : Clay_ChildAlignment
  layoutDirection : Clay_LayoutDirection
deriving DecidableEq

structure Clay_ScrollElementConfig where
  horizontal : Bool
  vertical : Bool
deriving DecidableEq

/-- Per-corner radii, floats. -/
structure Clay_CornerRadius where
  topLeft : ℚ
  topRight : ℚ
  bottomLeft : ℚ
  bottomRight : ℚ
deriving DecidableEq

/-- `Clay_BorderWidth`: per-edge widths, `uint16_t` each. -/
structure Clay_BorderWidth where
  left : Nat
  right : Nat
  top : Nat
  bottom : Nat
deriving DecidableEq

structure Clay_BorderElementConfig where
  color : Clay_Color
  width : Clay_BorderWidth
deriving DecidableEq

/-- The fields of `Clay_ElementDeclaration` touched by the style compiler.
`id` holds the hashed element identifier (0 when unset). -/
structure Clay_ElementDeclaration where
  id : Nat
  layout : Clay_LayoutConfig
  backgroundColor : Clay_Color
  cornerRadius : Clay_CornerRadius
  scroll : Clay_ScrollElementConfig
  border : Clay_BorderElementConfig
deriving DecidableEq

/-! ### The caller-authored style request (`ComponentOptions`) -/

/-- The `Border` sub-record of `ComponentOptions`: a color and a width token
(`char width[6]`). -/
structure Border where
  color : Clay_Color
  width : List Char
deriving DecidableEq

/-- `ComponentOptions`: the flat style request.  Zero/empty/null field
values mean "unset", exactly as the C truthiness tests treat them. -/
structure ComponentOptions where
  id : Option (List Char)
  bg : Clay_Color
  gap : Nat
  reverse : Bool
  scroll : Char
  p : Nat
  pb : Nat
  pt : Nat
  pl : Nat
  pr : Nat
  py : Nat
  px : Nat
  align0 : Char
  align1 : Char
  borderRadius : List Char
  border : Border
  w : Option (List Char)
  h : Option (List Char)
deriving DecidableEq

/-- The all-unset request: null pointers, zero numerics, NUL characters,
empty token strings, transparent colors. -/
def emptyComponentOptions : ComponentOptions :=
  { id := none
    bg := ⟨0, 0, 0, 0⟩
    gap := 0
    reverse := false
    scroll := Char.ofNat 0
    p := 0, pb := 0, pt := 0, pl := 0, pr := 0, py := 0, px := 0
    align0 := Char.ofNat 0
    align1 := Char.ofNat 0
    borderRadius := []
    border := ⟨⟨0, 0, 0, 0⟩, []⟩
    w := none
    h := none }

/-- A zeroed `Clay_ElementDeclaration`, the base of the per-component-class
defaults (C aggregate initialization zero-fills unmentioned fields). -/
def zeroDecl : Clay_ElementDeclaration :=
  { id := 0
    layout :=
      { sizing := ⟨Clay_SizingAxis.fit 0, Clay_SizingAxis.fit 0⟩
        padding := ⟨0, 0, 0, 0⟩
        childGap := 0
        childAlignment := ⟨Clay_LayoutAlignmentX.left, Clay_LayoutAlignmentY.top⟩
        layoutDirection := Clay_LayoutDirection.leftToRight }
    backgroundColor := ⟨0, 0, 0, 0⟩
    cornerRadius := ⟨0, 0, 0, 0⟩
    scroll := ⟨false, false⟩
    border := ⟨⟨0, 0, 0, 0⟩, ⟨0, 0, 0, 0⟩⟩ }

/-- `boxDefaultOptions`: top-to-bottom, fit-content both axes. -/
def boxDefaultOptions : Clay_ElementDeclaration :=
  { zeroDecl with
      layout := { zeroDecl.layout with layoutDirection := Clay_LayoutDirection.topToBottom } }

/-- `columnDefaultOptions`: same as the box defaults. -/
def columnDefaultOptions : Clay_ElementDeclaration := boxDefaultOptions

/-- `rowDefaultOptions`: left-to-right, fit-content both axes. -/
def rowDefaultOptions : Clay_ElementDeclaration :=
  { zeroDecl with
      layout := { zeroDecl.layout with layoutDirection := Clay_LayoutDirection.leftToRight } }

/-- `separatorDefaultOptions`: grow-to-fill both axes. -/
def separatorDefaultOptions : Clay_ElementDeclaration :=
  { zeroDecl with
      layout := { zeroDecl.layout with
        sizing := ⟨Clay_SizingAxis.grow 0, Clay_SizingAxis.grow 0⟩ } }

/-- `marginDefaultOptions`: fit-content both axes. -/
def marginDefaultOptions : Clay_ElementDeclaration := zeroDecl

/-! ### ParseComponentOptions, block by block (from `renderer.h` 865–1159).
The external `Clay__HashString` is passed in as `hashFn`. -/

/-- The "Misc" block: id hashing, background color, child gap. -/
def parseMisc (hashFn : List Char → Nat) (o : ComponentOptions)
    (r : Clay_ElementDeclaration) : Clay_ElementDeclaration :=
  let r := match o.id with
    | some s => { r with id := hashFn s }
    | none => r
  let r := if o.bg.r ≠ 0 ∨ o.bg.g ≠ 0 ∨ o.bg.b ≠ 0 ∨ o.bg.a ≠ 0 then
      { r with backgroundColor := o.bg } else r
  if o.gap ≠ 0 then { r with layout := { r.layout with childGap := o.gap } } else r

/-- The "Padding parse" block as a transformation of the padding record:
whole value, then axis values, then single-edge values, each overwriting. -/
def resolvePadding (o : ComponentOptions) (pad : Clay_Padding) : Clay_Padding :=
  let pad := if o.p ≠ 0 then ⟨o.p, o.p, o.p, o.p⟩ else pad
  let pad := if o.px ≠ 0 then { pad with left := o.px, right := o.px } else pad
  let pad := if o.py ≠ 0 then { pad with top := o.py, bottom := o.py } else pad
  let pad := if o.pt ≠ 0 then { pad with top := o.pt } else pad
  let pad := if o.pb ≠ 0 then { pad with bottom := o.pb } else pad
  let pad := if o.pl ≠ 0 then { pad with left := o.pl } else pad
  if o.pr ≠ 0 then { pad with right := o.pr } else pad

def parsePadding (o : ComponentOptions) (r : Clay_ElementDeclaration) :
    Clay_ElementDeclaration :=
  { r with layout := { r.layout with padding := resolvePadding o r.layout.padding } }

/-- The "Align parse" block. -/
def parseAlign (o : ComponentOptions) (r : Clay_ElementDeclaration) :
    Clay_ElementDeclaration :=
  let r := if o.align0 = 't' then
      { r with layout := { r.layout with childAlignment :=
          { r.layout.childAlignment with y := Clay_LayoutAlignmentY.top } } } else r
  let r := if o.align0 = 'c' then
      { r with layout := { r.layout with childAlignment :=
          { r.layout.childAlignment with y := Clay_LayoutAlignmentY.center } } } else r
  let r := if o.align0 = 'b' then
      { r with layout := { r.layout with childAlignment :=
          { r.layout.childAlignment with y := Clay_LayoutAlignmentY.bottom } } } else r
  let r := if o.align1 = 'l' then
      { r with layout := { r.layout with childAlignment :=
          { r.layout.childAlignment with x := Clay_LayoutAlignmentX.left } } } else r
  let r := if o.align1 = 'c' then
      { r with layout := { r.layout with childAlignment :=
          { r.layout.childAlignment with x := Clay_LayoutAlignmentX.center } } } else r
  if o.align1 = 'r' then
      { r with layout := { r.layout with childAlignment :=
          { r.layout.childAlignment with x := Clay_LayoutAlignmentX.right } } } else r

/-- The "Scroll parse" block (each hit replaces the whole scroll record). -/
def parseScroll (o : ComponentOptions) (r : Clay_ElementDeclaration) :
    Clay_ElementDeclaration :=
  let r := if o.scroll = 'v' then { r with scroll := ⟨false, true⟩ } else r
  let r := if o.scroll = 'h' then { r with scroll := ⟨true, false⟩ } else r
  if o.scroll = 'b' then { r with scroll := ⟨true, true⟩ } else r

/-- Size-name lookup of the border-radius grammar. -/
def radiusSizeOf (sizeStr : List Char) : ℚ :=
  let size : ℚ := 0
  let size := if sizeStr = ['x', 's'] then 2 else size
  let size := if sizeStr = ['s', 'm'] then 4 else size
  let size := if sizeStr = ['m', 'd'] then 6 else size
  let size := if sizeStr = ['l', 'g'] then 8 else size
  let size := if sizeStr = ['x', 'l'] then 12 else size
  let size := if sizeStr = ['2', 'x', 'l'] then 16 else size
  if sizeStr = ['3', 'x', 'l'] then 24 else size

/-- The "Border radius parse" block.  `none` models the failed
`assert(delimiter != NULL)`.  Each direction hit replaces the whole
`Clay_CornerRadius` record (unmentioned corners become 0). -/
def parseBorderRadius (o : ComponentOptions) (r : Clay_ElementDeclaration) :
    Option Clay_ElementDeclaration :=
  if o.borderRadius = [] then some r
  else
    match lastIndexOf o.borderRadius '-' with
    | none => none
    | some idx =>
      let stringLen := min o.borderRadius.length 6
      let directionLen := idx
      let sizeLen := stringLen - (directionLen + 1)
      let directionStr := o.borderRadius.take directionLen
      let sizeStr := (o.borderRadius.drop (idx + 1)).take sizeLen
      let size := radiusSizeOf sizeStr
      let cr := r.cornerRadius
      let cr := if directionStr = ['t'] then ⟨size, size, 0, 0⟩ else cr
      let cr := if directionStr = ['b'] then ⟨0, 0, size, size⟩ else cr
      let cr := if directionStr = ['l'] then ⟨size, 0, size, 0⟩ else cr
      let cr := if directionStr = ['r'] then ⟨0, size, 0, size⟩ else cr
      let cr := if directionStr = ['t', 'l'] then ⟨size, 0, 0, 0⟩ else cr
      let cr := if directionStr = ['t', 'r'] then ⟨0, size, 0, 0⟩ else cr
      let cr := if directionStr = ['b', 'l'] then ⟨0, 0, size, 0⟩ else cr
      let cr := if directionStr = ['b', 'r'] then ⟨0, 0, 0, size⟩ else cr
      let cr := if directionStr = ['a'] then ⟨size, size, size, size⟩ else cr
      some { r with cornerRadius := cr }

/-- The "Border width parsing" block: gated on a non-transparent border
color; `none` models the failed `assert(delimiter != NULL)`.  The direction
is the token's first character; each hit replaces the whole
`Clay_BorderWidth` record; the supplied color is then stored. -/
def parseBorder (o : ComponentOptions) (r : Clay_ElementDeclaration) :
    Option Clay_ElementDeclaration :=
  if o.border.color.a ≠ 0 then
    match lastIndexOf o.border.width '-' with
    | none => none
    | some idx =>
      let stringLen := min o.border.width.length 6
      let widthLen := idx
      let sizeLen := stringLen - (widthLen + 1)
      let directionChar := o.border.width.headD (Char.ofNat 0)
      let widthStr := (o.border.width.drop (idx + 1)).take sizeLen
      let wq := toU16 (atofQ widthStr)
      let bw := r.border.width
      let bw := if directionChar = 't' then ⟨0, 0, wq, 0⟩ else bw
      let bw := if directionChar = 'b' then ⟨0, 0, 0, wq⟩ else bw
      let bw := if directionChar = 'l' then ⟨wq, 0, 0, 0⟩ else bw
      let bw := if directionChar = 'r' then ⟨0, wq, 0, 0⟩ else bw
      let bw := if directionChar = 'a' then ⟨wq, wq, wq, wq⟩ else bw
      some { r with border := ⟨o.border.color, bw⟩ }
  else some r

/-- One sizing token applied to one axis.  `none` models the failed asserts
(missing delimiter, size literal too long, type shorter than 3 chars).
Token type lengths 6 and ≥ 8 pass the asserts but match no mode, leaving
the axis unchanged, exactly as in the source. -/
def parseSizingAxis (tok : List Char) (current : Clay_SizingAxis) :
    Option Clay_SizingAxis :=
  let stringLen := tok.length
  match lastIndexOf tok '-' with
  | none => none
  | some idx =>
    let typeLength := idx
    let sizeLen := stringLen - (typeLength + 1)
    if sizeLen < 10 then
      if 3 ≤ typeLength then
        let v := atofQ ((tok.drop (idx + 1)).take sizeLen)
        let ax := current
        let ax := if typeLength = 3 then Clay_SizingAxis.fit v else ax
        let ax := if typeLength = 4 then Clay_SizingAxis.grow v else ax
        let ax := if typeLength = 5 then Clay_SizingAxis.fixed v else ax
        let ax := if typeLength = 7 then Clay_SizingAxis.percent v else ax
        some ax
      else none
    else none

/-- The height part of the "Sizing" block. -/
def parseSizingH (o : ComponentOptions) (r : Clay_ElementDeclaration) :
    Option Clay_ElementDeclaration :=
  match o.h with
  | none => some r
  | some tok =>
    match parseSizingAxis tok r.layout.sizing.height with
    | none => none
    | some ax =>
      some { r with layout := { r.layout with sizing := { r.layout.sizing with height := ax } } }

/-- The width part of the "Sizing" block. -/
def parseSizingW (o : ComponentOptions) (r : Clay_ElementDeclaration) :
    Option Clay_ElementDeclaration :=
  match o.w with
  | none => some r
  | some tok =>
    match parseSizingAxis tok r.layout.sizing.width with
    | none => none
    | some ax =>
      some { r with layout := { r.layout with sizing := { r.layout.sizing with width := ax } } }

/-- The infallible front half of `ParseComponentOptions`: misc, padding,
alignment, scroll, in source order. -/
def preParse (hashFn : List Char → Nat) (o : ComponentOptions)
    (d : Clay_ElementDeclaration) : Clay_ElementDeclaration :=
  parseScroll o (parseAlign o (parsePadding o (parseMisc hashFn o d)))

/-- `ParseComponentOptions(options, defaultOptions)`: the style request
merged onto the component-class defaults.  `none` models a failed assert. -/
def ParseComponentOptions (hashFn : List Char → Nat) (o : ComponentOptions)
    (d : Clay_ElementDeclaration) : Option Clay_ElementDeclaration :=
  (parseBorderRadius o (preParse hashFn o d)).bind fun r1 =>
    (parseBorder o r1).bind fun r2 =>
      (parseSizingH o r2).bind fun r3 =>
        parseSizingW o r3

/-! ### Render commands and the interpreter (`Clay_Raylib_Render`) -/

structure Clay_TextRenderData where
  stringContents : List Char
  textColor : Clay_Color
  fontId : Nat
  fontSize : Nat
  letterSpacing : Nat
deriving DecidableEq

/-- The `Texture2D` reached through the image command's data pointer:
an opaque handle plus the native width the interpreter divides by. -/
structure TextureRef where
  id : Nat
  width : ℚ
deriving DecidableEq

structure Clay_ImageRenderData where
  backgroundColor : Clay_Color
  imageData : TextureRef
deriving DecidableEq

structure Clay_RectangleRenderData where
  backgroundColor : Clay_Color
  cornerRadius : Clay_CornerRadius
deriving DecidableEq

structure Clay_BorderRenderData where
  color : Clay_Color
  cornerRadius : Clay_CornerRadius
  width : Clay_BorderWidth
deriving DecidableEq

/-- The 3D-model custom payload.  The interpreter reads only `model` and
`scale`; `position` and `rotation` are carried but unused by this path. -/
structure CustomLayoutElement_3DModel where
  modelId : Nat
  scale : ℚ
  positionX : ℚ
  positionY : ℚ
  positionZ : ℚ
  rotationId : Nat
deriving DecidableEq

/-- The tagged custom payload; `type = 0` is
`CUSTOM_LAYOUT_ELEMENT_TYPE_3D_MODEL`, the union's only declared variant. -/
structure CustomLayoutElement where
  type : Nat
  model : CustomLayoutElement_3DModel
deriving DecidableEq

/-- The render-data union, modelled as a product: the switch reads only the
member matching `commandType`.  A null custom payload pointer is `none`. -/
structure Clay_RenderData where
  text : Clay_TextRenderData
  image : Clay_ImageRenderData
  rectangle : Clay_RectangleRenderData
  border : Clay_BorderRenderData
  custom : Option CustomLayoutElement
deriving DecidableEq

structure Clay_RenderCommand where
  boundingBox : Clay_BoundingBox
  renderData : Clay_RenderData
  commandType : Nat
deriving DecidableEq

def CLAY_RENDER_COMMAND_TYPE_NONE : Nat := 0
def CLAY_RENDER_COMMAND_TYPE_RECTANGLE : Nat := 1
def CLAY_RENDER_COMMAND_TYPE_BORDER : Nat := 2
def CLAY_RENDER_COMMAND_TYPE_TEXT : Nat := 3
def CLAY_RENDER_COMMAND_TYPE_IMAGE : Nat := 4
def CLAY_RENDER_COMMAND_TYPE_SCISSOR_START : Nat := 5
def CLAY_RENDER_COMMAND_TYPE_SCISSOR_END : Nat := 6
def CLAY_RENDER_COMMAND_TYPE_CUSTOM : Nat := 7

/-- One concrete backend call, with the arguments as written at the call
site.  `drawModelOp` records the inputs of the screen-to-world ray cast
(center point, reference screen size, z distance) the drawn position is
derived from, plus the scale actually passed to `DrawModel`. -/
inductive RaylibOp where
  | drawTextOp (fontId : Nat) (text : List Char) (x y fontSize letterSpacing : ℚ)
      (tint : RaylibColor)
  | drawTextureOp (textureId : Nat) (x y rotation scale : ℚ) (tint : RaylibColor)
  | beginScissorOp (x y w h : ℤ)
  | endScissorOp
  | drawRectangleOp (x y w h : ℚ) (color : RaylibColor)
  | drawRectangleRoundedOp (x y w h roundness : ℚ) (segments : Nat) (color : RaylibColor)
  | drawRingOp (cx cy inner outer startAngle endAngle : ℚ) (segments : Nat)
      (color : RaylibColor)
  | beginMode3DOp
  | drawModelOp (modelId : Nat) (rayX rayY : ℚ) (screenW screenH : ℤ)
      (zDistance : ℚ) (scale : ℚ)
  | endMode3DOp
deriving DecidableEq

/-- The `CLAY__MIN` macro: `((a) < (b) ? (a) : (b))`. -/
def CLAY__MIN (a b : ℚ) : ℚ := if a < b then a else b

/-- The `CLAY__MAX` macro: `((a) > (b) ? (a) : (b))`. -/
def CLAY__MAX (a b : ℚ) : ℚ := if a > b then a else b

/-- C `fminf` on the (non-NaN) rationals of this model. -/
def fminf (a b : ℚ) : ℚ := if a ≤ b then a else b

/-- C `fmaxf` on the (non-NaN) rationals of this model. -/
def fmaxf (a b : ℚ) : ℚ := if a ≤ b then b else a

/-- The display scale factor of the 3D-model path
(`CLAY__MIN(CLAY__MIN(1, 768 / rootBox.height) * CLAY__MAX(1, rootBox.width / 1024), 1.5f)`). -/
def scaleValue (rootBox : Clay_BoundingBox) : ℚ :=
  CLAY__MIN (CLAY__MIN 1 (768 / rootBox.height) * CLAY__MAX 1 (rootBox.width / 1024)) (3 / 2)

/-- Modelled from the spec: the display scale factor as the specification
words it, "min(1, referenceHeight/768) × max(1, referenceWidth/1024)"
clamped to 1.5, for comparison with `scaleValue` from the source. -/
def specScaleValue (rootBox : Clay_BoundingBox) : ℚ :=
  fminf (fminf 1 (rootBox.height / 768) * fmaxf 1 (rootBox.width / 1024)) (3 / 2)

/-- One iteration of the interpreter's switch: the backend calls issued for
one command, or `none` for the `default: exit(1)` branch.  `rootBox` is the
first command's bounding box (`renderCommands.internalArray[0]`). -/
def processCmd (rootBox : Clay_BoundingBox) (cmd : Clay_RenderCommand) :
    Option (List RaylibOp) :=
  let bb := cmd.boundingBox
  if cmd.commandType = CLAY_RENDER_COMMAND_TYPE_TEXT then
    let td := cmd.renderData.text
    some [RaylibOp.drawTextOp td.fontId td.stringContents bb.x bb.y
      (td.fontSize : ℚ) (td.letterSpacing : ℚ) (CLAY_COLOR_TO_RAYLIB_COLOR td.textColor)]
  else if cmd.commandType = CLAY_RENDER_COMMAND_TYPE_IMAGE then
    let idata := cmd.renderData.image
    let tint := idata.backgroundColor
    let tint := if tint.r = 0 ∧ tint.g = 0 ∧ tint.b = 0 ∧ tint.a = 0 then
        (⟨255, 255, 255, 255⟩ : Clay_Color) else tint
    some [RaylibOp.drawTextureOp idata.imageData.id bb.x bb.y 0
      (bb.width / idata.imageData.width) (CLAY_COLOR_TO_RAYLIB_COLOR tint)]
  else if cmd.commandType = CLAY_RENDER_COMMAND_TYPE_SCISSOR_START then
    some [RaylibOp.beginScissorOp (roundQ bb.x) (roundQ bb.y) (roundQ bb.width) (roundQ bb.height)]
  else if cmd.commandType = CLAY_RENDER_COMMAND_TYPE_SCISSOR_END then
    some [RaylibOp.endScissorOp]
  else if cmd.commandType = CLAY_RENDER_COMMAND_TYPE_RECTANGLE then
    let cfg := cmd.renderData.rectangle
    if 0 < cfg.cornerRadius.topLeft then
      let radius := (cfg.cornerRadius.topLeft * 2) /
        (if bb.width > bb.height then bb.height else bb.width)
      some [RaylibOp.drawRectangleRoundedOp bb.x bb.y bb.width bb.height radius 8
        (CLAY_COLOR_TO_RAYLIB_COLOR cfg.backgroundColor)]
    else
      some [RaylibOp.drawRectangleOp bb.x bb.y bb.width bb.height
        (CLAY_COLOR_TO_RAYLIB_COLOR cfg.backgroundColor)]
  else if cmd.commandType = CLAY_RENDER_COMMAND_TYPE_BORDER then
    let cfg := cmd.renderData.border
    let col := CLAY_COLOR_TO_RAYLIB_COLOR cfg.color
    let leftOps := if 0 < cfg.width.left then
        [RaylibOp.drawRectangleOp (roundQ bb.x : ℚ)
          (roundQ (bb.y + cfg.cornerRadius.topLeft) : ℚ)
          (cfg.width.left : ℚ)
          (roundQ (bb.height - cfg.cornerRadius.topLeft - cfg.cornerRadius.bottomLeft) : ℚ)
          col] else []
    let rightOps := if 0 < cfg.width.right then
        [RaylibOp.drawRectangleOp (roundQ (bb.x + bb.width - (cfg.width.right : ℚ)) : ℚ)
          (roundQ (bb.y + cfg.cornerRadius.topRight) : ℚ)
          (cfg.width.right : ℚ)
          (roundQ (bb.height - cfg.cornerRadius.topRight - cfg.cornerRadius.bottomRight) : ℚ)
          col] else []
    let topOps := if 0 < cfg.width.top then
        [RaylibOp.drawRectangleOp (roundQ (bb.x + cfg.cornerRadius.topLeft) : ℚ)
          (roundQ bb.y : ℚ)
          (roundQ (bb.width - cfg.cornerRadius.topLeft - cfg.cornerRadius.topRight) : ℚ)
          (cfg.width.top : ℚ)
          col] else []
    let bottomOps := if 0 < cfg.width.bottom then
        [RaylibOp.drawRectangleOp (roundQ (bb.x + cfg.cornerRadius.bottomLeft) : ℚ)
          (roundQ (bb.y + bb.height - (cfg.width.bottom : ℚ)) : ℚ)
          (roundQ (bb.width - cfg.cornerRadius.bottomLeft - cfg.cornerRadius.bottomRight) : ℚ)
          (cfg.width.bottom : ℚ)
          col] else []
    let tlRing := if 0 < cfg.cornerRadius.topLeft then
        [RaylibOp.drawRingOp (roundQ (bb.x + cfg.cornerRadius.topLeft) : ℚ)
          (roundQ (bb.y + cfg.cornerRadius.topLeft) : ℚ)
          (roundQ (cfg.cornerRadius.topLeft - (cfg.width.top : ℚ)) : ℚ)
          cfg.cornerRadius.topLeft 180 270 10 col] else []
    let trRing := if 0 < cfg.cornerRadius.topRight then
        [RaylibOp.drawRingOp (roundQ (bb.x + bb.width - cfg.cornerRadius.topRight) : ℚ)
          (roundQ (bb.y + cfg.cornerRadius.topRight) : ℚ)
          (roundQ (cfg.cornerRadius.topRight - (cfg.width.top : ℚ)) : ℚ)
          cfg.cornerRadius.topRight 270 360 10 col] else []
    let blRing := if 0 < cfg.cornerRadius.bottomLeft then
        [RaylibOp.drawRingOp (roundQ (bb.x + cfg.cornerRadius.bottomLeft) : ℚ)
          (roundQ (bb.y + bb.height - cfg.cornerRadius.bottomLeft) : ℚ)
          (roundQ (cfg.cornerRadius.bottomLeft - (cfg.width.top : ℚ)) : ℚ)
          cfg.cornerRadius.bottomLeft 90 180 10 col] else []
    let brRing := if 0 < cfg.cornerRadius.bottomRight then
        [RaylibOp.drawRingOp (roundQ (bb.x + bb.width - cfg.cornerRadius.bottomRight) : ℚ)
          (roundQ (bb.y + bb.height - cfg.cornerRadius.bottomRight) : ℚ)
          (roundQ (cfg.cornerRadius.bottomRight - (cfg.width.bottom : ℚ)) : ℚ)
          cfg.cornerRadius.bottomRight (1 / 10) 90 10 col] else []
    some (leftOps ++ rightOps ++ topOps ++ bottomOps ++ tlRing ++ trRing ++ blRing ++ brRing)
  else if cmd.commandType = CLAY_RENDER_COMMAND_TYPE_CUSTOM then
    match cmd.renderData.custom with
    | none => some []
    | some elem =>
      if elem.type = 0 then
        some [RaylibOp.beginMode3DOp,
          RaylibOp.drawModelOp elem.model.modelId
            (bb.x + bb.width / 2) (bb.y + bb.height / 2 + 20)
            (roundQ rootBox.width) (roundQ rootBox.height) 140
            (elem.model.scale * scaleValue rootBox),
          RaylibOp.endMode3DOp]
      else some []
  else none

/-- The interpreter loop over the remaining commands: the backend calls
issued so far and whether the loop ran to completion (`false` means the
process was terminated by `exit(1)` at an unhandled command). -/
def renderGo (rootBox : Clay_BoundingBox) : List Clay_RenderCommand →
    List RaylibOp × Bool
  | [] => ([], true)
  | c :: rest =>
    match processCmd rootBox c with
    | none => ([], false)
    | some ops =>
      let r := renderGo rootBox rest
      (ops ++ r.1, r.2)

/-- `Clay_Raylib_Render`: iterate over the command array, with the first
command's bounding box as the reference viewport. -/
def Clay_Raylib_Render : List Clay_RenderCommand → List RaylibOp × Bool
  | [] => ([], true)
  | c :: rest => renderGo c.boundingBox (c :: rest)

/-- Bounding box of the first command of a nonempty array
(`renderCommands.internalArray[0].boundingBox`). -/
def headBox : List Clay_RenderCommand → Clay_BoundingBox
  | [] => ⟨0, 0, 0, 0⟩
  | c :: _ => c.boundingBox

/-- The tags handled by the interpreter's switch. -/
def knownTag (c : Clay_RenderCommand) : Prop :=
  c.commandType = CLAY_RENDER_COMMAND_TYPE_TEXT ∨
  c.commandType = CLAY_RENDER_COMMAND_TYPE_IMAGE ∨
  c.commandType = CLAY_RENDER_COMMAND_TYPE_SCISSOR_START ∨
  c.commandType = CLAY_RENDER_COMMAND_TYPE_SCISSOR_END ∨
  c.commandType = CLAY_RENDER_COMMAND_TYPE_RECTANGLE ∨
  c.commandType = CLAY_RENDER_COMMAND_TYPE_BORDER ∨
  c.commandType = CLAY_RENDER_COMMAND_TYPE_CUSTOM

instance (c : Clay_RenderCommand) : Decidable (knownTag c) := by
  unfold knownTag; infer_instance

/-! ### Scroll clamping (`ScrollContainerByY`, lines 776–786) -/

/-- The pure clamp performed by `ScrollContainerByY`: the scroll state
(current offset, content height, viewport height) is the data the C code
fetches through `Clay_GetScrollContainerData`; the returned value is the
offset it stores back. -/
def ScrollContainerByY (current contentHeight viewportHeight deltaY : ℚ) : ℚ :=
  let newScrollY := current + deltaY
  let minScrollY := -(fmaxf 0 (contentHeight - viewportHeight))
  fminf 0 (fmaxf newScrollY minScrollY)

/-! ### Arena allocator (lines 1164–1212).  The buffer pointer is modelled
by its numeric address `base`; returned allocations are identified by their
offset from `base`, so the region of an allocation `(o, size)` is
`[o, o + size)`. -/

def DEFAULT_ALIGNMENT : Nat := 16

/-- `alignForward`: push the address up to the next multiple of the
alignment (the source's `p & (a - 1)` equals `p % a` for the power-of-two
alignment, per its own comment). -/
def alignForward (p : Nat) : Nat :=
  let m := p % DEFAULT_ALIGNMENT
  if m ≠ 0 then p + (DEFAULT_ALIGNMENT - m) else p

structure Arena where
  base : Nat
  bufferLength : Nat
  prevOffset : Nat
  currOffset : Nat
deriving DecidableEq

/-- `ArenaAlloc`: forward-align the bump pointer, fail (assert) if the
aligned offset plus the size exceeds capacity, otherwise return the offset
and the advanced arena.  (The `memset` zero-fill has no observable effect
in this model.) -/
def ArenaAlloc (a : Arena) (size : Nat) : Option (Nat × Arena) :=
  let currPtr := a.base + a.currOffset
  let offset := alignForward currPtr - a.base
  if offset + size ≤ a.bufferLength then
    some (offset, { a with prevOffset := offset, currOffset := offset + size })
  else none

/-- `ArenaReset`: zero the bump offset. -/
def ArenaReset (a : Arena) : Arena := { a with currOffset := 0 }

/-- `ArenaInit(size)`: fresh arena over a buffer of `size` bytes at some
address `base`. -/
def ArenaInit (base size : Nat) : Arena :=
  { base := base, bufferLength := size, prevOffset := 0, currOffset := 0 }

/-- A sequence of `ArenaAlloc` calls with no intervening reset: the list of
returned regions `(offset, size)` and the final arena, or `none` if any
call hit the assert. -/
def allocSeq (a : Arena) : List Nat → Option (List (Nat × Nat) × Arena)
  | [] => some ([], a)
  | s :: ss =>
    match ArenaAlloc a s with
    | none => none
    | some (o, a1) =>
      match allocSeq a1 ss with
      | none => none
      | some (rs, a2) => some ((o, s) :: rs, a2)

/-! ### Concrete instances used to exercise the claims -/

/-- A trivial stand-in for the external `Clay__HashString`. -/
def hash0 : List Char → Nat := fun _ => 0

/-- A request supplying whole padding, both axis paddings, and the top and
left single-edge paddings. -/
def oPad : ComponentOptions :=
  { emptyComponentOptions with p := 1, px := 3, py := 2, pt := 4, pl := 5 }

/-- The expected resolution of `oPad` over the box defaults. -/
def rPad : Clay_ElementDeclaration :=
  { boxDefaultOptions with
      layout := { boxDefaultOptions.layout with padding := ⟨5, 3, 4, 2⟩ } }

/-- A request with a non-transparent border color and width token `a-50`. -/
def oBorder50 : ComponentOptions :=
  { emptyComponentOptions with border := ⟨⟨255, 0, 0, 255⟩, ['a', '-', '5', '0']⟩ }

/-- The expected resolution of `oBorder50` over the box defaults. -/
def rBorder50 : Clay_ElementDeclaration :=
  { boxDefaultOptions with border := ⟨⟨255, 0, 0, 255⟩, ⟨50, 50, 50, 50⟩⟩ }

def dummyText : Clay_TextRenderData := ⟨[], ⟨0, 0, 0, 0⟩, 0, 0, 0⟩

def dummyImage : Clay_ImageRenderData := ⟨⟨0, 0, 0, 0⟩, ⟨0, 1⟩⟩

def dummyRect : Clay_RectangleRenderData := ⟨⟨0, 0, 0, 0⟩, ⟨0, 0, 0, 0⟩⟩

def dummyBorderData : Clay_BorderRenderData := ⟨⟨0, 0, 0, 0⟩, ⟨0, 0, 0, 0⟩, ⟨0, 0, 0, 0⟩⟩

/-- A zeroed render-data union to build concrete commands from. -/
def dummyRenderData : Clay_RenderData :=
  ⟨dummyText, dummyImage, dummyRect, dummyBorderData, none⟩

/-- A sharp rectangle command over box (0, 0, 100, 50). -/
def rectCmdEx : Clay_RenderCommand :=
  ⟨⟨0, 0, 100, 50⟩, { dummyRenderData with rectangle := ⟨⟨30, 60, 90, 255⟩, ⟨0, 0, 0, 0⟩⟩ },
    CLAY_RENDER_COMMAND_TYPE_RECTANGLE⟩

/-- A command with tag `CLAY_RENDER_COMMAND_TYPE_NONE`, which the
interpreter's switch does not handle. -/
def unknownCmdEx : Clay_RenderCommand :=
  ⟨⟨0, 0, 0, 0⟩, dummyRenderData, CLAY_RENDER_COMMAND_TYPE_NONE⟩

/-- Border command with bottom-left and bottom-right radius 10, left and
bottom edge widths 4, and zero top and right widths. -/
def borderCmdBL : Clay_RenderCommand :=
  ⟨⟨0, 0, 100, 100⟩,
    { dummyRenderData with border := ⟨⟨255, 0, 0, 255⟩, ⟨0, 0, 10, 10⟩, ⟨4, 0, 0, 4⟩⟩ },
    CLAY_RENDER_COMMAND_TYPE_BORDER⟩

/-- Border render data with all four radii 5 and all four edge widths 1. -/
def borderDataW : Clay_RenderData :=
  { dummyRenderData with border := ⟨⟨0, 0, 255, 255⟩, ⟨5, 5, 5, 5⟩, ⟨1, 1, 1, 1⟩⟩ }

/-- Border command with all four radii 5 and all four edge widths 1. -/
def borderCmdW : Clay_RenderCommand :=
  ⟨⟨0, 0, 100, 100⟩, borderDataW, CLAY_RENDER_COMMAND_TYPE_BORDER⟩

/-- A 3D-model payload with unit scale. -/
def model3dEx : CustomLayoutElement := ⟨0, ⟨1, 1, 0, 0, 0, 0⟩⟩

/-- A custom command carrying `model3dEx` over box (0, 0, 1024, 384). -/
def customCmd5 : Clay_RenderCommand :=
  ⟨⟨0, 0, 1024, 384⟩, { dummyRenderData with custom := some model3dEx },
    CLAY_RENDER_COMMAND_TYPE_CUSTOM⟩

/-- A custom command whose payload pointer is NULL. -/
def customNullCmd : Clay_RenderCommand :=
  ⟨⟨0, 0, 50, 50⟩, dummyRenderData, CLAY_RENDER_COMMAND_TYPE_CUSTOM⟩

/-- Render data carrying `model3dEx`. -/
def customRenderDataEx : Clay_RenderData :=
  { dummyRenderData with custom := some model3dEx }

/-! ### Helper lemmas -/

/-- The C conditional minimum agrees with the mathematical minimum. -/
theorem fminf_eq_min (a b : ℚ) : fminf a b = min a b := (min_def a b).symm

/-- The C conditional maximum agrees with the mathematical maximum. -/
theorem fmaxf_eq_max (a b : ℚ) : fmaxf a b = max a b := (max_def a b).symm

/-- The `CLAY__MIN` macro agrees with the mathematical minimum. -/
theorem CLAY__MIN_eq_min (a b : ℚ) : CLAY__MIN a b = min a b := by
  unfold CLAY__MIN
  rcases lt_or_ge a b with h | h
  · rw [if_pos h, min_eq_left h.le]
  · rw [if_neg (not_lt.mpr h), min_eq_right h]

/-- The `CLAY__MAX` macro agrees with the mathematical maximum. -/
theorem CLAY__MAX_eq_max (a b : ℚ) : CLAY__MAX a b = max a b := by
  unfold CLAY__MAX
  rcases lt_or_ge b a with h | h
  · rw [if_pos h, max_eq_left h.le]
  · rw [if_neg (not_lt.mpr h), max_eq_right h]

/-- C1: resolving the empty style request over any component-class default
configuration succeeds and returns the defaults unchanged in every field. -/
theorem c1_empty_request_is_identity :
    ∀ (hashFn : List Char → Nat) (d : Clay_ElementDeclaration),
      ParseComponentOptions hashFn emptyComponentOptions d = some d :=
  fun _ _ => rfl

/-- C3: the vertical scroll-by-delta clamp equals
`min(0, max(current + delta, -max(0, contentHeight - viewportHeight)))`,
is always non-positive, and on content 500 / viewport 200 a delta of
-1000 from 0 gives exactly -300 and from -300 stays at -300. -/
theorem c3_scroll_clamp :
    (∀ current contentHeight viewportHeight deltaY : ℚ,
      ScrollContainerByY current contentHeight viewportHeight deltaY =
        min 0 (max (current + deltaY) (-(max 0 (contentHeight - viewportHeight)))) ∧
      ScrollContainerByY current contentHeight viewportHeight deltaY ≤ 0) ∧
    ScrollContainerByY 0 500 200 (-1000) = -300 ∧
    ScrollContainerByY (-300) 500 200 (-1000) = -300 := by
  refine ⟨fun current contentHeight viewportHeight deltaY => ⟨?_, ?_⟩, ?_, ?_⟩
  · unfold ScrollContainerByY
    rw [fminf_eq_min, fmaxf_eq_max, fmaxf_eq_max]
  · unfold ScrollContainerByY
    rw [fminf_eq_min]
    exact min_le_left 0 _
  · norm_num [ScrollContainerByY, fminf, fmaxf]
  · norm_num [ScrollContainerByY, fminf, fmaxf]

/-- C4: a Rectangle command with positive top-left radius draws a rounded
rectangle over the exact bounding box with roundness
`(topLeft * 2) / min(width, height)`; otherwise it draws a sharp rectangle
with the exact bounding box and the command's background color; on box
(0, 0, 100, 50) a radius of 10 gives roundness 0.4. -/
theorem c4_rectangle_draw :
    (∀ (rootBox bb : Clay_BoundingBox) (rd : Clay_RenderData),
      processCmd rootBox ⟨bb, rd, CLAY_RENDER_COMMAND_TYPE_RECTANGLE⟩ =
        some (if 0 < rd.rectangle.cornerRadius.topLeft then
          [RaylibOp.drawRectangleRoundedOp bb.x bb.y bb.width bb.height
            ((rd.rectangle.cornerRadius.topLeft * 2) / min bb.width bb.height) 8
            (CLAY_COLOR_TO_RAYLIB_COLOR rd.rectangle.backgroundColor)]
        else
          [RaylibOp.drawRectangleOp bb.x bb.y bb.width bb.height
            (CLAY_COLOR_TO_RAYLIB_COLOR rd.rectangle.backgroundColor)])) ∧
    ((10 : ℚ) * 2) / min (100 : ℚ) 50 = 0.4 := by
  constructor
  · intro rootBox bb rd
    norm_num [processCmd, CLAY_RENDER_COMMAND_TYPE_TEXT, CLAY_RENDER_COMMAND_TYPE_IMAGE,
      CLAY_RENDER_COMMAND_TYPE_SCISSOR_START, CLAY_RENDER_COMMAND_TYPE_SCISSOR_END,
      CLAY_RENDER_COMMAND_TYPE_RECTANGLE, CLAY_RENDER_COMMAND_TYPE_BORDER,
      CLAY_RENDER_COMMAND_TYPE_CUSTOM]
    split_ifs with h hgt
    · rw [min_eq_right hgt.le]
    · rw [min_eq_left (not_lt.mp hgt)]
    · rfl
  · norm_num [min_def]

/-- Forward alignment never moves an address backward. -/
theorem alignForward_ge (p : Nat) : p ≤ alignForward p := by
  unfold alignForward DEFAULT_ALIGNMENT
  dsimp only
  split <;> omega

/-- Anatomy of a successful `ArenaAlloc`: the returned offset starts at or
after the current bump offset, fits in the buffer, and the arena advances
to its end with base and capacity unchanged. -/
theorem ArenaAlloc_some_spec (a : Arena) (s o : Nat) (a1 : Arena)
    (h : ArenaAlloc a s = some (o, a1)) :
    a.currOffset ≤ o ∧ o + s ≤ a.bufferLength ∧ a1.currOffset = o + s ∧
    a1.base = a.base ∧ a1.bufferLength = a.bufferLength := by
  have hge := alignForward_ge (a.base + a.currOffset)
  simp only [ArenaAlloc] at h
  split at h
  · rename_i hle
    injection h with h2
    obtain ⟨ho, ha1⟩ := Prod.mk.injEq .. |>.mp h2
    subst ho
    subst ha1
    refine ⟨by omega, hle, rfl, rfl, rfl⟩
  · cases h

/-- Invariant of a successful allocation sequence: every region starts at
or after the initial bump offset, fits in the buffer, ends before the final
bump offset, the regions are ordered end-before-start, and base/capacity
are unchanged. -/
theorem allocSeq_spec (sizes : List Nat) : ∀ (a : Arena) (rs : List (Nat × Nat)) (a2 : Arena),
    allocSeq a sizes = some (rs, a2) →
    (∀ r ∈ rs, a.currOffset ≤ r.1 ∧ r.1 + r.2 ≤ a.bufferLength ∧ r.1 + r.2 ≤ a2.currOffset) ∧
    List.Pairwise (fun r1 r2 => r1.1 + r1.2 ≤ r2.1) rs ∧
    a.currOffset ≤ a2.currOffset ∧ a2.bufferLength = a.bufferLength ∧ a2.base = a.base := by
  induction sizes with
  | nil =>
    intro a rs a2 h
    simp only [allocSeq] at h
    injection h with h2
    obtain ⟨hrs, ha2⟩ := Prod.mk.injEq .. |>.mp h2
    subst hrs
    subst ha2
    simp
  | cons s ss ih =>
    intro a rs a2 h
    simp only [allocSeq] at h
    cases hA : ArenaAlloc a s with
    | none => rw [hA] at h; cases h
    | some oa1 =>
      obtain ⟨o, a1⟩ := oa1
      rw [hA] at h
      dsimp only at h
      cases hS : allocSeq a1 ss with
      | none => rw [hS] at h; cases h
      | some rsa2 =>
        obtain ⟨rs2, a2b⟩ := rsa2
        rw [hS] at h
        injection h with h2
        obtain ⟨hrs, ha2⟩ := Prod.mk.injEq .. |>.mp h2
        subst hrs
        subst ha2
        obtain ⟨hcur, hfit, hnew, hbase, hlen⟩ := ArenaAlloc_some_spec a s o a1 hA
        obtain ⟨ihAll, ihPw, ihCur, ihLen, ihBase⟩ := ih a1 rs2 a2b hS
        refine ⟨?_, ?_, by omega, by omega, by omega⟩
        · intro r hr
          rcases List.mem_cons.mp hr with hr | hr
          · subst hr
            exact ⟨hcur, hfit, by omega⟩
          · obtain ⟨h1, h2, h3⟩ := ihAll r hr
            exact ⟨by omega, by omega, h3⟩
        · rw [List.pairwise_cons]
          refine ⟨fun r hr => ?_, ihPw⟩
          have := (ihAll r hr).1
          omega

/-- C7: sequential arena allocations return pairwise-disjoint regions,
ordered so that each starts at or after the end of the previous one; every
returned region fits in the capacity; an allocation whose aligned offset
plus size exceeds capacity takes the assert branch instead of returning;
and after a reset an allocation may return the same address as a pre-reset
allocation. -/
theorem c7_arena_invariants :
    (∀ (a : Arena) (sizes : List Nat) (rs : List (Nat × Nat)) (a2 : Arena),
      allocSeq a sizes = some (rs, a2) →
        List.Pairwise (fun r1 r2 => r1.1 + r1.2 ≤ r2.1 ∨ r2.1 + r2.2 ≤ r1.1) rs ∧
        List.Pairwise (fun r1 r2 => r1.1 + r1.2 ≤ r2.1) rs ∧
        (∀ r ∈ rs, a.currOffset ≤ r.1 ∧ r.1 + r.2 ≤ a.bufferLength)) ∧
    (∀ (a : Arena) (s : Nat),
      a.bufferLength < alignForward (a.base + a.currOffset) - a.base + s →
      ArenaAlloc a s = none) ∧
    (ArenaAlloc (ArenaInit 0 64) 16 = some (0, ⟨0, 64, 0, 16⟩) ∧
      ArenaAlloc (ArenaReset ⟨0, 64, 0, 16⟩) 16 = some (0, ⟨0, 64, 0, 16⟩)) := by
  refine ⟨?_, ?_, by decide, by decide⟩
  · intro a sizes rs a2 h
    obtain ⟨hAll, hPw, _⟩ := allocSeq_spec sizes a rs a2 h
    exact ⟨hPw.imp Or.inl, hPw, fun r hr => ⟨(hAll r hr).1, (hAll r hr).2.1⟩⟩
  · intro a s hlt
    simp only [ArenaAlloc]
    rw [if_neg]
    omega

/-- Witness for C7: a concrete two-allocation sequence from a fresh
64-byte arena, and a concrete over-capacity allocation that fails. -/
theorem c7_arena_invariants_witness :
    (List.Pairwise (fun r1 r2 => r1.1 + r1.2 ≤ r2.1 ∨ r2.1 + r2.2 ≤ r1.1)
        [(0, 10), (16, 20)] ∧
      List.Pairwise (fun r1 r2 => r1.1 + r1.2 ≤ r2.1) [(0, 10), (16, 20)] ∧
      (∀ r ∈ [(0, 10), (16, 20)], (ArenaInit 0 64).currOffset ≤ r.1 ∧
        r.1 + r.2 ≤ (ArenaInit 0 64).bufferLength)) ∧
    ArenaAlloc (ArenaInit 0 8) 16 = none :=
  ⟨c7_arena_invariants.1 (ArenaInit 0 64) [10, 20] [(0, 10), (16, 20)] ⟨0, 64, 16, 36⟩
      (by decide),
    c7_arena_invariants.2.1 (ArenaInit 0 8) 16 (by decide)⟩

/-- A command with a handled tag always produces some list of backend
calls (no handled case aborts). -/
theorem processCmd_isSome_of_known (rootBox : Clay_BoundingBox) (c : Clay_RenderCommand)
    (h : knownTag c) : ∃ ops, processCmd rootBox c = some ops := by
  unfold knownTag at h
  unfold processCmd
  rcases h with h | h | h | h | h | h | h <;> rw [h] <;>
    norm_num [CLAY_RENDER_COMMAND_TYPE_TEXT, CLAY_RENDER_COMMAND_TYPE_IMAGE,
      CLAY_RENDER_COMMAND_TYPE_SCISSOR_START, CLAY_RENDER_COMMAND_TYPE_SCISSOR_END,
      CLAY_RENDER_COMMAND_TYPE_RECTANGLE, CLAY_RENDER_COMMAND_TYPE_BORDER,
      CLAY_RENDER_COMMAND_TYPE_CUSTOM]
  · split_ifs <;> exact ⟨_, rfl⟩
  · cases c.renderData.custom with
    | none => exact ⟨_, rfl⟩
    | some e =>
      dsimp only
      split_ifs <;> exact ⟨_, rfl⟩

/-- A command whose tag is not handled by the switch hits the
`default: exit(1)` branch. -/
theorem processCmd_eq_none_of_unknown (rootBox : Clay_BoundingBox)
    (c : Clay_RenderCommand) (h : ¬ knownTag c) : processCmd rootBox c = none := by
  unfold knownTag at h
  push_neg at h
  obtain ⟨h1, h2, h3, h4, h5, h6, h7⟩ := h
  unfold processCmd
  rw [if_neg h1, if_neg h2, if_neg h3, if_neg h4, if_neg h5, if_neg h6, if_neg h7]

/-- Processing a handled prefix, then an unhandled command, emits exactly
the prefix's calls and terminates the loop with the failure flag. -/
theorem renderGo_append_unknown (rootBox : Clay_BoundingBox)
    (pre : List Clay_RenderCommand) (c : Clay_RenderCommand)
    (post : List Clay_RenderCommand)
    (hpre : ∀ p ∈ pre, knownTag p) (hc : ¬ knownTag c) :
    renderGo rootBox (pre ++ c :: post) = ((renderGo rootBox pre).1, false) := by
  induction pre with
  | nil =>
    simp [renderGo, processCmd_eq_none_of_unknown rootBox c hc]
  | cons p ps ih =>
    obtain ⟨ops, hops⟩ := processCmd_isSome_of_known rootBox p (hpre p (by simp))
    have ih2 := ih (fun q hq => hpre q (by simp [hq]))
    simp [renderGo, hops, ih2]

/-- C9: when the command array is a handled prefix, then a command whose
tag is none of the seven handled ones, then anything, interpretation
processes exactly the prefix, reaches the unrecognized command and halts
the process there (failure flag, nothing of the tail processed). -/
theorem c9_unknown_command_fatal (pre : List Clay_RenderCommand)
    (c : Clay_RenderCommand) (post : List Clay_RenderCommand)
    (hpre : ∀ p ∈ pre, knownTag p) (hc : ¬ knownTag c) :
    Clay_Raylib_Render (pre ++ c :: post) =
      ((renderGo (headBox (pre ++ c :: post)) pre).1, false) := by
  cases pre with
  | nil =>
    simp [Clay_Raylib_Render, headBox, renderGo,
      processCmd_eq_none_of_unknown c.boundingBox c hc]
  | cons p ps =>
    simp only [List.cons_append, Clay_Raylib_Render, headBox]
    exact renderGo_append_unknown p.boundingBox (p :: ps) c post hpre hc

/-- Witness for C9: a rectangle command, then a command with the unhandled
tag 0, then another rectangle command. -/
theorem c9_unknown_command_fatal_witness :
    Clay_Raylib_Render ([rectCmdEx] ++ unknownCmdEx :: [rectCmdEx]) =
      ((renderGo (headBox ([rectCmdEx] ++ unknownCmdEx :: [rectCmdEx])) [rectCmdEx]).1,
        false) :=
  c9_unknown_command_fatal [rectCmdEx] unknownCmdEx [rectCmdEx] (by decide) (by decide)

/-- C10: a Custom command with a NULL payload, or one whose payload has an
unrecognized custom-element type, draws nothing and the loop continues
with the remaining commands unchanged (not fatal). -/
theorem c10_custom_null_skipped (rootBox : Clay_BoundingBox)
    (c : Clay_RenderCommand) (rest : List Clay_RenderCommand)
    (htag : c.commandType = CLAY_RENDER_COMMAND_TYPE_CUSTOM)
    (hp : c.renderData.custom = none ∨ ∃ e, c.renderData.custom = some e ∧ e.type ≠ 0) :
    processCmd rootBox c = some [] ∧
    renderGo rootBox (c :: rest) = renderGo rootBox rest := by
  have h1 : processCmd rootBox c = some [] := by
    unfold processCmd
    rw [htag]
    norm_num [CLAY_RENDER_COMMAND_TYPE_TEXT, CLAY_RENDER_COMMAND_TYPE_IMAGE,
      CLAY_RENDER_COMMAND_TYPE_SCISSOR_START, CLAY_RENDER_COMMAND_TYPE_SCISSOR_END,
      CLAY_RENDER_COMMAND_TYPE_RECTANGLE, CLAY_RENDER_COMMAND_TYPE_BORDER,
      CLAY_RENDER_COMMAND_TYPE_CUSTOM]
    rcases hp with h | ⟨e, he, hty⟩
    · rw [h]
    · rw [he]
      dsimp only
      rw [if_neg hty]
  refine ⟨h1, ?_⟩
  simp [renderGo, h1]

/-- Witness for C10: the NULL-payload custom command followed by a
rectangle command. -/
theorem c10_custom_null_skipped_witness :
    processCmd ⟨0, 0, 50, 50⟩ customNullCmd = some [] ∧
    renderGo ⟨0, 0, 50, 50⟩ (customNullCmd :: [rectCmdEx]) =
      renderGo ⟨0, 0, 50, 50⟩ [rectCmdEx] :=
  c10_custom_null_skipped ⟨0, 0, 50, 50⟩ customNullCmd [rectCmdEx] rfl (Or.inl rfl)

/-- The misc block never touches padding or border. -/
theorem parseMisc_preserves (hashFn : List Char → Nat) (o : ComponentOptions)
    (r : Clay_ElementDeclaration) :
    (parseMisc hashFn o r).layout.padding = r.layout.padding ∧
    (parseMisc hashFn o r).border = r.border := by
  unfold parseMisc
  repeat' split
  all_goals exact ⟨rfl, rfl⟩

/-- The padding block rewrites the padding via `resolvePadding` and never
touches the border. -/
theorem parsePadding_spec (o : ComponentOptions) (r : Clay_ElementDeclaration) :
    (parsePadding o r).layout.padding = resolvePadding o r.layout.padding ∧
    (parsePadding o r).border = r.border :=
  ⟨rfl, rfl⟩

/-- The alignment block never touches padding or border. -/
theorem parseAlign_preserves (o : ComponentOptions) (r : Clay_ElementDeclaration) :
    (parseAlign o r).layout.padding = r.layout.padding ∧
    (parseAlign o r).border = r.border := by
  unfold parseAlign
  repeat' split
  all_goals exact ⟨rfl, rfl⟩

/-- The scroll block never touches padding or border. -/
theorem parseScroll_preserves (o : ComponentOptions) (r : Clay_ElementDeclaration) :
    (parseScroll o r).layout.padding = r.layout.padding ∧
    (parseScroll o r).border = r.border := by
  unfold parseScroll
  repeat' split
  all_goals exact ⟨rfl, rfl⟩

/-- The border-radius block only rewrites the corner radii. -/
theorem parseBorderRadius_preserves (o : ComponentOptions)
    (r r2 : Clay_ElementDeclaration) (h : parseBorderRadius o r = some r2) :
    r2.layout = r.layout ∧ r2.border = r.border := by
  unfold parseBorderRadius at h
  split at h
  · cases h
    exact ⟨rfl, rfl⟩
  · split at h
    · cases h
    · cases h
      exact ⟨rfl, rfl⟩

/-- The border block only rewrites the border. -/
theorem parseBorder_preserves_layout (o : ComponentOptions)
    (r r2 : Clay_ElementDeclaration) (h : parseBorder o r = some r2) :
    r2.layout = r.layout := by
  unfold parseBorder at h
  split at h
  · split at h
    · cases h
    · cases h
      rfl
  · cases h
    rfl

/-- With a fully transparent border color the border block is skipped. -/
theorem parseBorder_skip (o : ComponentOptions) (r : Clay_ElementDeclaration)
    (h : o.border.color.a = 0) : parseBorder o r = some r := by
  unfold parseBorder
  rw [if_neg (fun hc => hc h)]

/-- The sizing blocks only rewrite the sizing axes. -/
theorem parseSizingH_preserves (o : ComponentOptions)
    (r r2 : Clay_ElementDeclaration) (h : parseSizingH o r = some r2) :
    r2.layout.padding = r.layout.padding ∧ r2.border = r.border := by
  unfold parseSizingH at h
  split at h
  · cases h
    exact ⟨rfl, rfl⟩
  · split at h
    · cases h
    · cases h
      exact ⟨rfl, rfl⟩

theorem parseSizingW_preserves (o : ComponentOptions)
    (r r2 : Clay_ElementDeclaration) (h : parseSizingW o r = some r2) :
    r2.layout.padding = r.layout.padding ∧ r2.border = r.border := by
  unfold parseSizingW at h
  split at h
  · cases h
    exact ⟨rfl, rfl⟩
  · split at h
    · cases h
    · cases h
      exact ⟨rfl, rfl⟩

/-- `preParse` resolves the padding from the defaults and keeps the border. -/
theorem preParse_spec (hashFn : List Char → Nat) (o : ComponentOptions)
    (d : Clay_ElementDeclaration) :
    (preParse hashFn o d).layout.padding = resolvePadding o d.layout.padding ∧
    (preParse hashFn o d).border = d.border := by
  unfold preParse
  obtain ⟨hm1, hm2⟩ := parseMisc_preserves hashFn o d
  obtain ⟨hp1, hp2⟩ := parsePadding_spec o (parseMisc hashFn o d)
  obtain ⟨ha1, ha2⟩ := parseAlign_preserves o (parsePadding o (parseMisc hashFn o d))
  obtain ⟨hs1, hs2⟩ :=
    parseScroll_preserves o (parseAlign o (parsePadding o (parseMisc hashFn o d)))
  rw [hs1, ha1, hp1, hm1, hs2, ha2, hp2, hm2]
  exact ⟨rfl, rfl⟩

/-- Decomposition of a successful `ParseComponentOptions` run into its
four fallible stages. -/
theorem POC_decompose (hashFn : List Char → Nat) (o : ComponentOptions)
    (d r : Clay_ElementDeclaration) (h : ParseComponentOptions hashFn o d = some r) :
    ∃ r1 r2 r3, parseBorderRadius o (preParse hashFn o d) = some r1 ∧
      parseBorder o r1 = some r2 ∧ parseSizingH o r2 = some r3 ∧
      parseSizingW o r3 = some r := by
  unfold ParseComponentOptions at h
  cases h1 : parseBorderRadius o (preParse hashFn o d) with
  | none => rw [h1] at h; cases h
  | some r1 =>
    rw [h1] at h
    dsimp only [Option.bind] at h
    cases h2 : parseBorder o r1 with
    | none => rw [h2] at h; cases h
    | some r2 =>
      rw [h2] at h
      dsimp only [Option.bind] at h
      cases h3 : parseSizingH o r2 with
      | none => rw [h3] at h; cases h
      | some r3 =>
        rw [h3] at h
        dsimp only [Option.bind] at h
        exact ⟨r1, r2, r3, rfl, h2, h3, h⟩

/-- The padding of the final configuration is the padding resolved by the
padding block from the defaults. -/
theorem POC_padding (hashFn : List Char → Nat) (o : ComponentOptions)
    (d r : Clay_ElementDeclaration) (h : ParseComponentOptions hashFn o d = some r) :
    r.layout.padding = resolvePadding o d.layout.padding := by
  obtain ⟨r1, r2, r3, h1, h2, h3, h4⟩ := POC_decompose hashFn o d r h
  have e1 := (parseBorderRadius_preserves o _ r1 h1).1
  have e2 := parseBorder_preserves_layout o r1 r2 h2
  have e3 := (parseSizingH_preserves o r2 r3 h3).1
  have e4 := (parseSizingW_preserves o r3 r h4).1
  rw [e4, e3, e2, e1, (preParse_spec hashFn o d).1]

/-- Resolved top padding: single edge, then vertical axis, then whole. -/
theorem resolvePadding_top (o : ComponentOptions) (pad : Clay_Padding) :
    (resolvePadding o pad).top =
      if o.pt ≠ 0 then o.pt else if o.py ≠ 0 then o.py
      else if o.p ≠ 0 then o.p else pad.top := by
  unfold resolvePadding
  repeat' split
  all_goals simp_all

/-- Resolved bottom padding: single edge, then vertical axis, then whole. -/
theorem resolvePadding_bottom (o : ComponentOptions) (pad : Clay_Padding) :
    (resolvePadding o pad).bottom =
      if o.pb ≠ 0 then o.pb else if o.py ≠ 0 then o.py
      else if o.p ≠ 0 then o.p else pad.bottom := by
  unfold resolvePadding
  repeat' split
  all_goals simp_all

/-- Resolved left padding: single edge, then horizontal axis, then whole. -/
theorem resolvePadding_left (o : ComponentOptions) (pad : Clay_Padding) :
    (resolvePadding o pad).left =
      if o.pl ≠ 0 then o.pl else if o.px ≠ 0 then o.px
      else if o.p ≠ 0 then o.p else pad.left := by
  unfold resolvePadding
  repeat' split
  all_goals simp_all

/-- Resolved right padding: single edge, then horizontal axis, then whole. -/
theorem resolvePadding_right (o : ComponentOptions) (pad : Clay_Padding) :
    (resolvePadding o pad).right =
      if o.pr ≠ 0 then o.pr else if o.px ≠ 0 then o.px
      else if o.p ≠ 0 then o.p else pad.right := by
  unfold resolvePadding
  repeat' split
  all_goals simp_all

/-- C2: in any successfully resolved request, a single-edge padding value
always decides that edge, and in its absence an axis value beats the whole
value, independently of the other supplied fields. -/
theorem c2_padding_precedence (hashFn : List Char → Nat) (o : ComponentOptions)
    (d r : Clay_ElementDeclaration) (h : ParseComponentOptions hashFn o d = some r) :
    (o.pt ≠ 0 → r.layout.padding.top = o.pt) ∧
    (o.pb ≠ 0 → r.layout.padding.bottom = o.pb) ∧
    (o.pl ≠ 0 → r.layout.padding.left = o.pl) ∧
    (o.pr ≠ 0 → r.layout.padding.right = o.pr) ∧
    (o.pt = 0 → o.py ≠ 0 → r.layout.padding.top = o.py) ∧
    (o.pb = 0 → o.py ≠ 0 → r.layout.padding.bottom = o.py) ∧
    (o.pl = 0 → o.px ≠ 0 → r.layout.padding.left = o.px) ∧
    (o.pr = 0 → o.px ≠ 0 → r.layout.padding.right = o.px) := by
  have hp := POC_padding hashFn o d r h
  rw [hp]
  refine ⟨?_, ?_, ?_, ?_, ?_, ?_, ?_, ?_⟩
  · intro h1; rw [resolvePadding_top, if_pos h1]
  · intro h1; rw [resolvePadding_bottom, if_pos h1]
  · intro h1; rw [resolvePadding_left, if_pos h1]
  · intro h1; rw [resolvePadding_right, if_pos h1]
  · intro h1 h2; rw [resolvePadding_top, if_neg (by simp [h1]), if_pos h2]
  · intro h1 h2; rw [resolvePadding_bottom, if_neg (by simp [h1]), if_pos h2]
  · intro h1 h2; rw [resolvePadding_left, if_neg (by simp [h1]), if_pos h2]
  · intro h1 h2; rw [resolvePadding_right, if_neg (by simp [h1]), if_pos h2]

/-- Witness for C2: the request `oPad` (p=1, px=3, py=2, pt=4, pl=5)
resolved over the box defaults has top 4, left 5, bottom 2, right 3. -/
theorem c2_padding_precedence_witness :
    rPad.layout.padding.top = 4 ∧ rPad.layout.padding.left = 5 ∧
    rPad.layout.padding.bottom = 2 ∧ rPad.layout.padding.right = 3 := by
  have hc := c2_padding_precedence hash0 oPad boxDefaultOptions rPad (by decide)
  exact ⟨hc.1 (by decide), hc.2.2.1 (by decide),
    hc.2.2.2.2.2.1 (by decide) (by decide), hc.2.2.2.2.2.2.2 (by decide) (by decide)⟩

/-- With a non-transparent color and width token `a-50`, the border block
sets all four edge widths to 50 and stores the supplied color. -/
theorem parseBorder_a50 (o : ComponentOptions) (r : Clay_ElementDeclaration)
    (h1 : o.border.color.a ≠ 0) (h2 : o.border.width = ['a', '-', '5', '0']) :
    parseBorder o r = some { r with border := ⟨o.border.color, ⟨50, 50, 50, 50⟩⟩ } := by
  unfold parseBorder
  rw [if_pos h1, h2]
  rfl

/-- The border of the final configuration is decided by the border block
applied after `preParse` and the radius block. -/
theorem POC_border (hashFn : List Char → Nat) (o : ComponentOptions)
    (d r : Clay_ElementDeclaration) (h : ParseComponentOptions hashFn o d = some r) :
    ∃ r1, parseBorderRadius o (preParse hashFn o d) = some r1 ∧ r1.border = d.border ∧
      ∃ r2, parseBorder o r1 = some r2 ∧ r.border = r2.border := by
  obtain ⟨r1, r2, r3, h1, h2, h3, h4⟩ := POC_decompose hashFn o d r h
  refine ⟨r1, h1, ?_, r2, h2, ?_⟩
  · rw [(parseBorderRadius_preserves o _ r1 h1).2, (preParse_spec hashFn o d).2]
  · rw [(parseSizingW_preserves o r3 r h4).2, (parseSizingH_preserves o r2 r3 h3).2]

/-- C8: with a fully transparent border color every border field of the
result stays at the defaults regardless of the width token; with a
non-transparent color and token `a-50` all four edge widths become 50 and
the stored color equals the supplied color. -/
theorem c8_border_gating :
    (∀ (hashFn : List Char → Nat) (o : ComponentOptions) (d r : Clay_ElementDeclaration),
      o.border.color.a = 0 → ParseComponentOptions hashFn o d = some r →
      r.border = d.border) ∧
    (∀ (hashFn : List Char → Nat) (o : ComponentOptions) (d r : Clay_ElementDeclaration),
      o.border.color.a ≠ 0 → o.border.width = ['a', '-', '5', '0'] →
      ParseComponentOptions hashFn o d = some r →
      r.border.width = ⟨50, 50, 50, 50⟩ ∧ r.border.color = o.border.color) := by
  constructor
  · intro hashFn o d r ha h
    obtain ⟨r1, h1, hb1, r2, h2, hb2⟩ := POC_border hashFn o d r h
    rw [parseBorder_skip o r1 ha] at h2
    cases h2
    rw [hb2, hb1]
  · intro hashFn o d r ha htok h
    obtain ⟨r1, h1, hb1, r2, h2, hb2⟩ := POC_border hashFn o d r h
    rw [parseBorder_a50 o r1 ha htok] at h2
    cases h2
    rw [hb2]
    exact ⟨rfl, rfl⟩

/-- Witness for C8: a transparent-border request leaves the box default
border; the request `oBorder50` produces widths 50 and the supplied red. -/
theorem c8_border_gating_witness :
    boxDefaultOptions.border = boxDefaultOptions.border ∧
    rBorder50.border.width = ⟨50, 50, 50, 50⟩ ∧
    rBorder50.border.color = oBorder50.border.color :=
  ⟨c8_border_gating.1 hash0 emptyComponentOptions boxDefaultOptions boxDefaultOptions
      (by decide) (by decide),
    (c8_border_gating.2 hash0 oBorder50 boxDefaultOptions rBorder50
      (by decide) (by decide) (by decide)).1,
    (c8_border_gating.2 hash0 oBorder50 boxDefaultOptions rBorder50
      (by decide) (by decide) (by decide)).2⟩

/-- C5 (amended): the reference viewport is the first command's bounding
box, and the drawn 3D-model scale is the payload scale times
`min(min(1, 768/referenceHeight) * max(1, referenceWidth/1024), 1.5)`. -/
theorem c5_custom_model_scale :
    (∀ (c : Clay_RenderCommand) (rest : List Clay_RenderCommand),
      Clay_Raylib_Render (c :: rest) = renderGo c.boundingBox (c :: rest)) ∧
    (∀ (rootBox bb : Clay_BoundingBox) (rd : Clay_RenderData) (e : CustomLayoutElement),
      rd.custom = some e → e.type = 0 →
      processCmd rootBox ⟨bb, rd, CLAY_RENDER_COMMAND_TYPE_CUSTOM⟩ =
        some [RaylibOp.beginMode3DOp,
          RaylibOp.drawModelOp e.model.modelId (bb.x + bb.width / 2)
            (bb.y + bb.height / 2 + 20) (roundQ rootBox.width) (roundQ rootBox.height) 140
            (e.model.scale *
              min (min 1 (768 / rootBox.height) * max 1 (rootBox.width / 1024)) (3 / 2)),
          RaylibOp.endMode3DOp]) := by
  constructor
  · intro c rest
    rfl
  · intro rootBox bb rd e he hty
    unfold processCmd
    norm_num [CLAY_RENDER_COMMAND_TYPE_TEXT, CLAY_RENDER_COMMAND_TYPE_IMAGE,
      CLAY_RENDER_COMMAND_TYPE_SCISSOR_START, CLAY_RENDER_COMMAND_TYPE_SCISSOR_END,
      CLAY_RENDER_COMMAND_TYPE_RECTANGLE, CLAY_RENDER_COMMAND_TYPE_BORDER,
      CLAY_RENDER_COMMAND_TYPE_CUSTOM]
    rw [he]
    dsimp only
    rw [if_pos hty]
    simp only [scaleValue, CLAY__MIN_eq_min, CLAY__MAX_eq_max]

/-- Witness for C5: the 3D-model command `customCmd5` as the only (hence
first) command, and a direct instantiation of the scale equation. -/
theorem c5_custom_model_scale_witness :
    Clay_Raylib_Render [customCmd5] = renderGo customCmd5.boundingBox [customCmd5] ∧
    processCmd ⟨0, 0, 800, 600⟩ ⟨⟨0, 0, 50, 50⟩, customRenderDataEx,
        CLAY_RENDER_COMMAND_TYPE_CUSTOM⟩ =
      some [RaylibOp.beginMode3DOp,
        RaylibOp.drawModelOp model3dEx.model.modelId ((0 : ℚ) + 50 / 2)
          ((0 : ℚ) + 50 / 2 + 20) (roundQ 800) (roundQ 600) 140
          (model3dEx.model.scale * min (min 1 (768 / 600) * max 1 (800 / 1024)) (3 / 2)),
        RaylibOp.endMode3DOp] :=
  ⟨c5_custom_model_scale.1 customCmd5 [],
    c5_custom_model_scale.2 ⟨0, 0, 800, 600⟩ ⟨0, 0, 50, 50⟩ customRenderDataEx model3dEx
      rfl rfl⟩

/-- Counterexample for C5 as stated: on reference viewport 1024×384 and a
unit-scale payload the interpreter draws the model with scale factor 1,
but the claimed formula `min(min(1, height/768) * max(1, width/1024), 1.5)`
gives 1/2. -/
theorem c5_counterexample :
    (Clay_Raylib_Render [customCmd5]).1 =
      [RaylibOp.beginMode3DOp, RaylibOp.drawModelOp 1 512 212 1024 384 140 1,
        RaylibOp.endMode3DOp] ∧
    model3dEx.model.scale * specScaleValue ⟨0, 0, 1024, 384⟩ = 1 / 2 ∧
    (1 : ℚ) ≠ 1 / 2 := by
  refine ⟨?_, ?_, by norm_num⟩
  · norm_num [Clay_Raylib_Render, renderGo, processCmd, customCmd5, dummyRenderData,
      model3dEx, scaleValue, CLAY__MIN, CLAY__MAX, roundQ, Rat.floor,
      CLAY_RENDER_COMMAND_TYPE_TEXT, CLAY_RENDER_COMMAND_TYPE_IMAGE,
      CLAY_RENDER_COMMAND_TYPE_SCISSOR_START, CLAY_RENDER_COMMAND_TYPE_SCISSOR_END,
      CLAY_RENDER_COMMAND_TYPE_RECTANGLE, CLAY_RENDER_COMMAND_TYPE_BORDER,
      CLAY_RENDER_COMMAND_TYPE_CUSTOM]
  · norm_num [model3dEx, specScaleValue, fminf, fmaxf]

/-- C6 (amended): for each corner with positive radius the Border path
draws a quarter-ring with outer radius the corner radius and inner radius
`roundf(radius - top edge width)` for the top-left, top-right and
bottom-left corners and `roundf(radius - bottom edge width)` for the
bottom-right corner, over sectors 180°–270°, 270°–360°, 90°–180° and
0.1°–90° respectively, in the border color. -/
theorem c6_border_corner_arcs (rootBox bb : Clay_BoundingBox) (rd : Clay_RenderData) :
    (0 < rd.border.cornerRadius.topLeft →
      RaylibOp.drawRingOp (roundQ (bb.x + rd.border.cornerRadius.topLeft) : ℚ)
        (roundQ (bb.y + rd.border.cornerRadius.topLeft) : ℚ)
        (roundQ (rd.border.cornerRadius.topLeft - (rd.border.width.top : ℚ)) : ℚ)
        rd.border.cornerRadius.topLeft 180 270 10
        (CLAY_COLOR_TO_RAYLIB_COLOR rd.border.color) ∈
        (processCmd rootBox ⟨bb, rd, CLAY_RENDER_COMMAND_TYPE_BORDER⟩).getD []) ∧
    (0 < rd.border.cornerRadius.topRight →
      RaylibOp.drawRingOp (roundQ (bb.x + bb.width - rd.border.cornerRadius.topRight) : ℚ)
        (roundQ (bb.y + rd.border.cornerRadius.topRight) : ℚ)
        (roundQ (rd.border.cornerRadius.topRight - (rd.border.width.top : ℚ)) : ℚ)
        rd.border.cornerRadius.topRight 270 360 10
        (CLAY_COLOR_TO_RAYLIB_COLOR rd.border.color) ∈
        (processCmd rootBox ⟨bb, rd, CLAY_RENDER_COMMAND_TYPE_BORDER⟩).getD []) ∧
    (0 < rd.border.cornerRadius.bottomLeft →
      RaylibOp.drawRingOp (roundQ (bb.x + rd.border.cornerRadius.bottomLeft) : ℚ)
        (roundQ (bb.y + bb.height - rd.border.cornerRadius.bottomLeft) : ℚ)
        (roundQ (rd.border.cornerRadius.bottomLeft - (rd.border.width.top : ℚ)) : ℚ)
        rd.border.cornerRadius.bottomLeft 90 180 10
        (CLAY_COLOR_TO_RAYLIB_COLOR rd.border.color) ∈
        (processCmd rootBox ⟨bb, rd, CLAY_RENDER_COMMAND_TYPE_BORDER⟩).getD []) ∧
    (0 < rd.border.cornerRadius.bottomRight →
      RaylibOp.drawRingOp (roundQ (bb.x + bb.width - rd.border.cornerRadius.bottomRight) : ℚ)
        (roundQ (bb.y + bb.height - rd.border.cornerRadius.bottomRight) : ℚ)
        (roundQ (rd.border.cornerRadius.bottomRight - (rd.border.width.bottom : ℚ)) : ℚ)
        rd.border.cornerRadius.bottomRight (1 / 10) 90 10
        (CLAY_COLOR_TO_RAYLIB_COLOR rd.border.color) ∈
        (processCmd rootBox ⟨bb, rd, CLAY_RENDER_COMMAND_TYPE_BORDER⟩).getD []) := by
  unfold processCmd
  norm_num [CLAY_RENDER_COMMAND_TYPE_TEXT, CLAY_RENDER_COMMAND_TYPE_IMAGE,
    CLAY_RENDER_COMMAND_TYPE_SCISSOR_START, CLAY_RENDER_COMMAND_TYPE_SCISSOR_END,
    CLAY_RENDER_COMMAND_TYPE_RECTANGLE, CLAY_RENDER_COMMAND_TYPE_BORDER,
    CLAY_RENDER_COMMAND_TYPE_CUSTOM]
  refine ⟨?_, ?_, ?_, ?_⟩ <;> intro h <;> simp [List.mem_append, h]

/-- Witness for C6: the border command `borderCmdW` (all radii 5, all edge
widths 1) produces all four quarter-ring arcs. -/
theorem c6_border_corner_arcs_witness :
    RaylibOp.drawRingOp (roundQ ((0 : ℚ) + 5) : ℚ) (roundQ ((0 : ℚ) + 5) : ℚ)
        (roundQ ((5 : ℚ) - ((1 : Nat) : ℚ)) : ℚ) 5 180 270 10
        (CLAY_COLOR_TO_RAYLIB_COLOR ⟨0, 0, 255, 255⟩) ∈
      (processCmd ⟨0, 0, 0, 0⟩ ⟨⟨0, 0, 100, 100⟩, borderDataW,
        CLAY_RENDER_COMMAND_TYPE_BORDER⟩).getD [] ∧
    RaylibOp.drawRingOp (roundQ ((0 : ℚ) + 100 - 5) : ℚ) (roundQ ((0 : ℚ) + 5) : ℚ)
        (roundQ ((5 : ℚ) - ((1 : Nat) : ℚ)) : ℚ) 5 270 360 10
        (CLAY_COLOR_TO_RAYLIB_COLOR ⟨0, 0, 255, 255⟩) ∈
      (processCmd ⟨0, 0, 0, 0⟩ ⟨⟨0, 0, 100, 100⟩, borderDataW,
        CLAY_RENDER_COMMAND_TYPE_BORDER⟩).getD [] ∧
    RaylibOp.drawRingOp (roundQ ((0 : ℚ) + 5) : ℚ) (roundQ ((0 : ℚ) + 100 - 5) : ℚ)
        (roundQ ((5 : ℚ) - ((1 : Nat) : ℚ)) : ℚ) 5 90 180 10
        (CLAY_COLOR_TO_RAYLIB_COLOR ⟨0, 0, 255, 255⟩) ∈
      (processCmd ⟨0, 0, 0, 0⟩ ⟨⟨0, 0, 100, 100⟩, borderDataW,
        CLAY_RENDER_COMMAND_TYPE_BORDER⟩).getD [] ∧
    RaylibOp.drawRingOp (roundQ ((0 : ℚ) + 100 - 5) : ℚ) (roundQ ((0 : ℚ) + 100 - 5) : ℚ)
        (roundQ ((5 : ℚ) - ((1 : Nat) : ℚ)) : ℚ) 5 (1 / 10) 90 10
        (CLAY_COLOR_TO_RAYLIB_COLOR ⟨0, 0, 255, 255⟩) ∈
      (processCmd ⟨0, 0, 0, 0⟩ ⟨⟨0, 0, 100, 100⟩, borderDataW,
        CLAY_RENDER_COMMAND_TYPE_BORDER⟩).getD [] := by
  obtain ⟨h1, h2, h3, h4⟩ :=
    c6_border_corner_arcs ⟨0, 0, 0, 0⟩ ⟨0, 0, 100, 100⟩ borderDataW
  exact ⟨h1 (by decide), h2 (by decide), h3 (by decide), h4 (by decide)⟩

/-- Counterexample for C6 as stated: on `borderCmdBL` (bottom-left and
bottom-right radius 10, left and bottom widths 4, top and right widths 0)
the bottom-left arc's inner radius is 10, not 10 − 4 = 6 as the claimed
adjacent-edge rule demands, and the bottom-right arc starts at 0.1°, not
0°. -/
theorem c6_counterexample :
    RaylibOp.drawRingOp 10 90 6 10 90 180 10 ⟨255, 0, 0, 255⟩ ∉
      (Clay_Raylib_Render [borderCmdBL]).1 ∧
    RaylibOp.drawRingOp 90 90 6 10 0 90 10 ⟨255, 0, 0, 255⟩ ∉
      (Clay_Raylib_Render [borderCmdBL]).1 ∧
    RaylibOp.drawRingOp 10 90 10 10 90 180 10 ⟨255, 0, 0, 255⟩ ∈
      (Clay_Raylib_Render [borderCmdBL]).1 ∧
    RaylibOp.drawRingOp 90 90 6 10 (1 / 10) 90 10 ⟨255, 0, 0, 255⟩ ∈
      (Clay_Raylib_Render [borderCmdBL]).1 := by
  have hops : (Clay_Raylib_Render [borderCmdBL]).1 =
      [RaylibOp.drawRectangleOp 0 0 4 90 ⟨255, 0, 0, 255⟩,
        RaylibOp.drawRectangleOp 10 96 80 4 ⟨255, 0, 0, 255⟩,
        RaylibOp.drawRingOp 10 90 10 10 90 180 10 ⟨255, 0, 0, 255⟩,
        RaylibOp.drawRingOp 90 90 6 10 (1 / 10) 90 10 ⟨255, 0, 0, 255⟩] := by
    norm_num [Clay_Raylib_Render, renderGo, processCmd, borderCmdBL, dummyRenderData,
      CLAY_COLOR_TO_RAYLIB_COLOR, roundQ, Rat.floor,
      CLAY_RENDER_COMMAND_TYPE_TEXT, CLAY_RENDER_COMMAND_TYPE_IMAGE,
      CLAY_RENDER_COMMAND_TYPE_SCISSOR_START, CLAY_RENDER_COMMAND_TYPE_SCISSOR_END,
      CLAY_RENDER_COMMAND_TYPE_RECTANGLE, CLAY_RENDER_COMMAND_TYPE_BORDER,
      CLAY_RENDER_COMMAND_TYPE_CUSTOM]
  rw [hops]
  refine ⟨by norm_num; simp, by norm_num; simp, by norm_num, by norm_num⟩
